import Mathlib

/-!
# Verification of the GameDB command layer (`gamedb` package)

A shallow embedding of the GameDB console application:

* `gamedb/parser_gamedb.py` — the command handlers and the token grammar
  (`ID_TOK`, `INT_TOK`, `NAME_TOK`);
* `gamedb/gamedb.py` — the name-lookup helpers `get_player_name`,
  `get_game_name`, `get_victory_name`.

The SQLite tables are embedded as lists of record rows (list order plays the
role of rowid order: inserts append at the end).  The schema file
`data/init.sql` — which declares the tables' primary keys and the view
`per_game_totals_view` — is not among the sources; those parts are modelled
from the specification (§3 and the derived-data description) and are marked
`Modelled from the spec:` below.  Everything else is translated directly from
the Python source.
-/

namespace GameDB

/-- Row of the `player` table (`INSERT INTO player (id, name)`). -/
structure Player where
  id : Nat
  name : String
deriving DecidableEq

/-- Row of the `game` table (`INSERT INTO game (id, name)`). -/
structure Game where
  id : Nat
  name : String
deriving DecidableEq

/-- Row of the `victory` table (`INSERT INTO victory (id, game_id, name, points)`). -/
structure Victory where
  id : Nat
  game_id : Nat
  name : String
  points : Int
deriving DecidableEq

/-- Row of the `player_game` table (`INSERT INTO player_game (player_id, game_id, ign)`). -/
structure PlayerGame where
  player_id : Nat
  game_id : Nat
  ign : String
deriving DecidableEq

/-- Row of the `friendship` table (`INSERT INTO friendship (player_id, friend_id)`). -/
structure Friendship where
  player_id : Nat
  friend_id : Nat
deriving DecidableEq

/-- Row of the `player_victory` table
(`INSERT INTO player_victory (player_id, victory_id)`).
The row stores only the player and the victory id — no game column. -/
structure PlayerVictory where
  player_id : Nat
  victory_id : Nat
deriving DecidableEq

/-- The database state: one list of rows per table, in insertion (rowid) order. -/
structure DB where
  player : List Player
  game : List Game
  victory : List Victory
  player_game : List PlayerGame
  friendship : List Friendship
  player_victory : List PlayerVictory
deriving DecidableEq

/-- The freshly initialised database (all tables empty). -/
def dbEmpty : DB := ⟨[], [], [], [], [], []⟩

/-! ## Name-lookup helpers (`gamedb.py`) -/

/-- `SELECT name FROM player WHERE id = ?` followed by `fetchone` — the first
matching row, if any.  (`GameDB.get_player_name`.) -/
def get_player_name (db : DB) (player_id : Nat) : Option String :=
  (db.player.find? (fun p => p.id == player_id)).map (fun p => p.name)

/-- `SELECT name FROM game WHERE id = ?` (`GameDB.get_game_name`). -/
def get_game_name (db : DB) (game_id : Nat) : Option String :=
  (db.game.find? (fun g => g.id == game_id)).map (fun g => g.name)

/-- `SELECT name FROM victory WHERE id = ? [AND game_id = ?]`
(`GameDB.get_victory_name`; the game filter is added when a game id is given). -/
def get_victory_name (db : DB) (victory_id : Nat) (game_id : Option Nat) : Option String :=
  (db.victory.find? (fun v =>
    v.id == victory_id &&
      match game_id with
      | some g => v.game_id == g
      | none => true)).map (fun v => v.name)

/-! ## Mutating commands (`parser_gamedb.py`)

Each handler prints a success message, or an error via `print_err` for a
missing parent entity or an `IntegrityError` (duplicate key).  `Out.ok`/
`Out.err` model the two kinds of output.  The duplicate test for each insert
is the table's primary key; the keys are modelled from the spec (§3), since
`data/init.sql` is not among the sources:
player `id`; game `id`; victory `(game_id, id)`; player_game
`(player_id, game_id)`; friendship `(player_id, friend_id)`; player_victory
`(player_id, victory_id)`.  A failed insert changes nothing (SQLite rejects
the row), matching the handlers' catch-and-report of `IntegrityError`.
-/

/-- A handler's observable outcome: a printed success message, or an error
message sent to `print_err`. -/
inductive Out where
  | ok (msg : String)
  | err (msg : String)
deriving DecidableEq

/-- The six mutating commands of the command surface. -/
inductive Cmd where
  | addPlayer (player_id : Nat) (player_name : String)
  | addGame (game_id : Nat) (game_name : String)
  | addVictory (game_id victory_id : Nat) (victory_name : String) (points : Int)
  | plays (player_id game_id : Nat) (player_ign : String)
  | addFriends (player1_id player2_id : Nat)
  | winVictory (player_id game_id victory_id : Nat)
deriving DecidableEq

/-- `cmd_add_player`: insert into `player`, duplicate `id` is an
`IntegrityError`. -/
def cmd_add_player (db : DB) (player_id : Nat) (player_name : String) : DB × Out :=
  if db.player.any (fun p => p.id == player_id) then
    (db, .err ("Player #" ++ toString player_id ++ " already exists!"))
  else
    ({db with player := db.player ++ [⟨player_id, player_name⟩]},
      .ok (player_name ++ " added as Player #" ++ toString player_id ++ "."))

/-- `cmd_add_game`: insert into `game`, duplicate `id` is an `IntegrityError`. -/
def cmd_add_game (db : DB) (game_id : Nat) (game_name : String) : DB × Out :=
  if db.game.any (fun g => g.id == game_id) then
    (db, .err ("Game ID " ++ toString game_id ++ " already exists!"))
  else
    ({db with game := db.game ++ [⟨game_id, game_name⟩]},
      .ok (game_name ++ " added as Game #" ++ toString game_id ++ "."))

/-- `cmd_add_victory`: check the game exists (`get_game_name`), then insert
into `victory`; duplicate `(game_id, id)` is an `IntegrityError`. -/
def cmd_add_victory (db : DB) (game_id victory_id : Nat) (victory_name : String)
    (points : Int) : DB × Out :=
  match get_game_name db game_id with
  | none => (db, .err ("Game #" ++ toString game_id ++ " is not in the database!"))
  | some game_name =>
    if db.victory.any (fun v => v.game_id == game_id && v.id == victory_id) then
      (db, .err ("Victory #" ++ toString victory_id ++ " already exists!"))
    else
      ({db with victory := db.victory ++ [⟨victory_id, game_id, victory_name, points⟩]},
        .ok (victory_name ++ " added to " ++ game_name ++ " as Victory #"
          ++ toString victory_id ++ "."))

/-- `cmd_plays`: check the player then the game exist, then insert into
`player_game`; duplicate `(player_id, game_id)` is an `IntegrityError`. -/
def cmd_plays (db : DB) (player_id game_id : Nat) (player_ign : String) : DB × Out :=
  match get_player_name db player_id with
  | none => (db, .err ("Player #" ++ toString player_id ++ " is not in the database!"))
  | some player_name =>
    match get_game_name db game_id with
    | none => (db, .err ("Game #" ++ toString game_id ++ " is not in the database!"))
    | some game_name =>
      if db.player_game.any (fun e => e.player_id == player_id && e.game_id == game_id) then
        (db, .err (game_name ++ " is already in " ++ player_name ++ " game list!"))
      else
        ({db with player_game := db.player_game ++ [⟨player_id, game_id, player_ign⟩]},
          .ok ("Added " ++ game_name ++ " to player " ++ player_name ++ " game list."))

/-- `cmd_add_friends`: check both players exist, then insert the single
directed row `(player1_id, player2_id)` into `friendship`; duplicate ordered
pair is an `IntegrityError`.  The reverse row is never inserted. -/
def cmd_add_friends (db : DB) (player1_id player2_id : Nat) : DB × Out :=
  match get_player_name db player1_id with
  | none => (db, .err ("Player #" ++ toString player1_id ++ " is not in the database!"))
  | some player1_name =>
    match get_player_name db player2_id with
    | none => (db, .err ("Player #" ++ toString player2_id ++ " is not in the database!"))
    | some player2_name =>
      if db.friendship.any (fun f => f.player_id == player1_id && f.friend_id == player2_id) then
        (db, .err (player1_name ++ " is already friends with " ++ player2_name ++ "."))
      else
        ({db with friendship := db.friendship ++ [⟨player1_id, player2_id⟩]},
          .ok (player1_name ++ " and " ++ player2_name ++ " are now friends."))

/-- `cmd_win_victory`: check the player exists and the victory exists within
the stated game (`get_victory_name(victory_id, game_id=game_id)`), then insert
`(player_id, victory_id)` into `player_victory` — the game is not recorded;
duplicate `(player_id, victory_id)` is an `IntegrityError`. -/
def cmd_win_victory (db : DB) (player_id game_id victory_id : Nat) : DB × Out :=
  match get_player_name db player_id with
  | none => (db, .err ("Player #" ++ toString player_id ++ " is not in the database!"))
  | some player_name =>
    match get_victory_name db victory_id (some game_id) with
    | none => (db, .err ("Victory #" ++ toString victory_id ++ " is not in the database!"))
    | some victory_name =>
      if db.player_victory.any
          (fun pv => pv.player_id == player_id && pv.victory_id == victory_id) then
        (db, .err (player_name ++ " has already earned " ++ victory_name ++ "!"))
      else
        ({db with player_victory := db.player_victory ++ [⟨player_id, victory_id⟩]},
          .ok ("Added " ++ victory_name ++ " to " ++ player_name ++ " victories."))

/-- Dispatch a mutating command to its handler. -/
def runCmd (c : Cmd) (db : DB) : DB × Out :=
  match c with
  | .addPlayer i n => cmd_add_player db i n
  | .addGame i n => cmd_add_game db i n
  | .addVictory g v n pts => cmd_add_victory db g v n pts
  | .plays p g ign => cmd_plays db p g ign
  | .addFriends a b => cmd_add_friends db a b
  | .winVictory p g v => cmd_win_victory db p g v

/-- Run a command sequence (one console line after another), keeping states. -/
def runCmds (cs : List Cmd) (db : DB) : DB :=
  cs.foldl (fun s c => (runCmd c s).1) db

/-! ## The token grammar (`parser_gamedb.py` lines 11–18)

`ID_TOK = pp.Word(pp.nums).setParseAction(lambda l: int(l[0]))` matches a
nonempty run of decimal digits and replaces it by its integer value.
`OPT_SIGN = pp.Optional(pp.Word("+-", exact=1))` matches one sign character
if present, contributing it as a string token, and nothing otherwise.
`INT_TOK = (OPT_SIGN + ID_TOK).setParseAction(lambda l: int(l[0]))` then
applies Python `int()` to the FIRST token of the combined list.
`INT_TOK.leaveWhitespace()` (pyparsing recursively copies the sub-elements
with whitespace skipping off) makes the sign and digits adjacent with no
whitespace skipped before them.

The embedding runs each element at a character-list position.  A pyparsing
match failure is `parseFail` (a `ParseException`, caught by the session
loop); an exception raised by a parse action — such as `ValueError` from
`int()` on a non-numeric string — propagates out of the parser uncaught,
modelled by `valueError`. -/

/-- The longest (possibly empty) prefix of decimal digits, and the rest. -/
def digitsPrefix : List Char → List Char × List Char
  | [] => ([], [])
  | c :: cs =>
    if c.isDigit then
      let p := digitsPrefix cs
      (c :: p.1, p.2)
    else ([], c :: cs)

/-- Numeric value of a digit run. -/
def digitsToNat (ds : List Char) : Nat :=
  ds.foldl (fun acc c => 10 * acc + (c.toNat - 48)) 0

/-- A pyparsing token after parse actions: either still a string (like the
matched sign character) or already converted to an integer (by `ID_TOK`'s
parse action). -/
inductive PyTok where
  | str (v : String)
  | int (v : Int)
deriving DecidableEq

/-- Python `int(s)` on a string: an optional single leading sign followed by
at least one decimal digit (this covers every string the program applies it
to); `none` models the `ValueError` raised otherwise — in particular
`int("-")` and `int("+")` raise. -/
def pyIntString (s : String) : Option Int :=
  let core : List Char → Option Nat := fun cs =>
    if cs.isEmpty || cs.any (fun c => !c.isDigit) then none else some (digitsToNat cs)
  match s.data with
  | [] => none
  | c :: rest =>
    if c == '-' then (core rest).map (fun n => -(n : Int))
    else if c == '+' then (core rest).map (fun n => (n : Int))
    else (core (c :: rest)).map (fun n => (n : Int))

/-- Python `int(x)` on a parse token: an integer token is returned as is, a
string token goes through string conversion. -/
def pyInt : PyTok → Option Int
  | .int v => some v
  | .str v => pyIntString v

/-- `ID_TOK` run at a position with whitespace skipping off (the copy inside
`INT_TOK` after `leaveWhitespace()`): match `Word(nums)`, then the parse
action replaces the digits by their integer value. -/
def idTokRun (cs : List Char) : Option (PyTok × List Char) :=
  let p := digitsPrefix cs
  if p.1.isEmpty then none else some (.int (digitsToNat p.1), p.2)

/-- `OPT_SIGN` run at a position: `Optional(Word("+-", exact=1))` — consume
one `+`/`-` if present (token: that one-character string), else succeed with
no tokens. -/
def optSignRun (cs : List Char) : List PyTok × List Char :=
  match cs with
  | [] => ([], [])
  | c :: rest =>
    if c == '+' || c == '-' then ([.str (String.mk [c])], rest) else ([], c :: rest)

/-- Outcome of running `INT_TOK` on input. -/
inductive IntTokResult where
  /-- `ParseException`: the grammar did not match. -/
  | parseFail
  /-- `ValueError` raised by the `int(l[0])` parse action (propagates
  uncaught: the session loop catches only `ParseBaseException`). -/
  | valueError
  /-- Successful match and conversion; `rest` is the unconsumed input. -/
  | ok (value : Int) (rest : List Char)
deriving DecidableEq

/-- `INT_TOK` run at a position: `OPT_SIGN + ID_TOK` in sequence (no
whitespace between them), then the parse action `int(l[0])` applied to the
first token of the combined token list. -/
def intTokRun (cs : List Char) : IntTokResult :=
  let s := optSignRun cs
  match idTokRun s.2 with
  | none => .parseFail
  | some (numTok, rest) =>
    match (s.1 ++ [numTok]).head? with
    | none => .parseFail
    | some t =>
      match pyInt t with
      | none => .valueError
      | some v => .ok v rest

/-- `INT_TOK` on a whole string argument. -/
def intTokRunStr (s : String) : IntTokResult := intTokRun s.data

/-! ## The per-game totals view and the report queries -/

/-- The victories of game `g` that player `p` has achieved: victory rows of
`g` whose id appears with `p` in `player_victory` (the achievement row holds
only the victory id, so the match is by id). -/
def earnedVictories (db : DB) (p g : Nat) : List Victory :=
  db.victory.filter (fun v =>
    v.game_id == g &&
      db.player_victory.any (fun pv => pv.player_id == p && pv.victory_id == v.id))

/-- Per-game score of player `p` in game `g`: sum of points of the achieved
victories of that game — `0` when there are none. -/
def game_score (db : DB) (p g : Nat) : Int :=
  ((earnedVictories db p g).map (fun v => v.points)).sum

/-- Number of achieved victories of player `p` in game `g`. -/
def n_earned_victories (db : DB) (p g : Nat) : Nat :=
  (earnedVictories db p g).length

/-- Row of `per_game_totals_view`. -/
structure PGTVRow where
  player_id : Nat
  game_id : Nat
  game_score : Int
  n_earned_victories : Nat
deriving DecidableEq

/-- Modelled from the spec: `per_game_totals_view` is declared in
`data/init.sql`, which is not among the sources.  Per the spec's derived-data
description (§3: per-game score and victory count per `(player, game)` pair,
with "all numeric aggregates default missing values to 0") and its use by the
report handlers ("players with the game in their library"), the view has one
row per `player_game` library entry, carrying that pair's per-game score
(`0` when the player achieved nothing) and achieved-victory count. -/
def per_game_totals_view (db : DB) : List PGTVRow :=
  db.player_game.map (fun e =>
    ⟨e.player_id, e.game_id, game_score db e.player_id e.game_id,
      n_earned_victories db e.player_id e.game_id⟩)

/-- Does player `p` have an achievement row for victory id `vid`?  (The
`CASE WHEN pv.victory_id IS NULL` test of the `LEFT JOIN player_victory`
in `cmd_compare_players` — the join is on the victory id alone.) -/
def hasPV (db : DB) (p vid : Nat) : Bool :=
  db.player_victory.any (fun pv => pv.player_id == p && pv.victory_id == vid)

/-! ### FriendsWhoPlay (`cmd_friends_who_play`) -/

/-- The friendship rows whose `player_id` is `p` — the `WHERE f.player_id = ?`
selection both `cmd_friends_who_play` and `cmd_summarize_player` start from:
only edges originating at the acting player are considered. -/
def outEdges (db : DB) (p : Nat) : List Friendship :=
  db.friendship.filter (fun f => f.player_id == p)

/-- The unsorted result rows of the `FriendsWhoPlay` query:
`friendship INNER JOIN player ON p.id = f.friend_id LEFT JOIN
per_game_totals_view ON pgtv.player_id = f.friend_id WHERE f.player_id = ?
AND pgtv.game_id = ?`.  The `WHERE` on the view's `game_id` discards the
null row of the left join, so a friend appears exactly when the view has a
row for them and the given game, with `COALESCE(game_score, 0)` as score. -/
def fwpRows (db : DB) (p g : Nat) : List (String × Int) :=
  (outEdges db p).filterMap (fun f =>
    (db.player.find? (fun q => q.id == f.friend_id)).bind (fun q =>
      ((per_game_totals_view db).find? (fun r =>
        r.player_id == f.friend_id && r.game_id == g)).map (fun r =>
          (q.name, r.game_score))))

/-- `cmd_friends_who_play`: check the player and the game exist, then the
query above with `ORDER BY game_score DESC`. -/
def friendsWhoPlay (db : DB) (p g : Nat) : Except String (List (String × Int)) :=
  match get_player_name db p with
  | none => .error ("Player #" ++ toString p ++ " is not in the database!")
  | some _ =>
    match get_game_name db g with
    | none => .error ("Game #" ++ toString g ++ " is not in the database!")
    | some _ =>
      .ok (List.insertionSort (fun a b => b.2 ≤ a.2) (fwpRows db p g))

/-! ### ComparePlayers (`cmd_compare_players`) -/

/-- The `ORDER BY CASE WHEN p.id = ? THEN 0 ELSE 1 END` sort key of the
totals query: the requesting player's rows first. -/
def cpKey (p1 : Nat) (t : Nat × String × Int) : Nat :=
  if t.1 = p1 then 0 else 1

/-- The totals rows of `ComparePlayers`, with the player id kept for the sort
key: `per_game_totals_view INNER JOIN player ON p.id = v.player_id WHERE
v.game_id = ? AND p.id IN (?, ?)`, sorted requesting player first.  A player
with no library entry for the game has no view row and is absent. -/
def cpTotalsFull (db : DB) (p1 p2 g : Nat) : List (Nat × String × Int) :=
  List.insertionSort (fun a b => cpKey p1 a ≤ cpKey p1 b)
    ((per_game_totals_view db).filterMap (fun r =>
      if r.game_id == g && (r.player_id == p1 || r.player_id == p2) then
        (db.player.find? (fun q => q.id == r.player_id)).map (fun q =>
          (r.player_id, q.name, r.game_score))
      else none))

/-- A row of the victories table of `ComparePlayers`: victory name, points,
and the two `Y`/`N` achievement flags. -/
structure VicRow where
  name : String
  points : Int
  flag1 : String
  flag2 : String
deriving DecidableEq

/-- `ORDER BY v.name ASC, v.points DESC` on victory rows. -/
def vicOrd (a b : VicRow) : Prop :=
  a.name < b.name ∨ (a.name = b.name ∧ b.points ≤ a.points)

instance : DecidableRel vicOrd := fun a b =>
  decidable_of_iff (a.name < b.name ∨ (a.name = b.name ∧ b.points ≤ a.points)) Iff.rfl

/-- The victories table of `ComparePlayers`: every victory row of the game,
flagged `Y`/`N` per player by the `LEFT JOIN player_victory ON
pv.victory_id = v.id AND pv.player_id = ?` (match by victory id alone; under
the `(player_id, victory_id)` key at most one achievement row matches),
ordered by name ascending then points descending. -/
def cpVictories (db : DB) (p1 p2 g : Nat) : List VicRow :=
  List.insertionSort vicOrd
    ((db.victory.filter (fun v => v.game_id == g)).map (fun v =>
      ⟨v.name, v.points, if hasPV db p1 v.id then "Y" else "N",
        if hasPV db p2 v.id then "Y" else "N"⟩))

/-- `cmd_compare_players`: check both players and the game exist, then print
the totals table (ids projected away) and the victories table. -/
def comparePlayers (db : DB) (p1 p2 g : Nat) :
    Except String (List (String × Int) × List VicRow) :=
  match get_player_name db p1 with
  | none => .error ("Player #" ++ toString p1 ++ " is not in the database!")
  | some _ =>
    match get_player_name db p2 with
    | none => .error ("Player #" ++ toString p2 ++ " is not in the database!")
    | some _ =>
      match get_game_name db g with
      | none => .error ("Game #" ++ toString g ++ " is not in the database!")
      | some _ =>
        .ok ((cpTotalsFull db p1 p2 g).map (fun t => (t.2.1, t.2.2)),
          cpVictories db p1 p2 g)

/-! ### SummarizePlayer (`cmd_summarize_player`) -/

/-- Aggregate score of a player over all games: `SUM(COALESCE(game_score, 0))`
over their view rows, `0` when the left join finds none. -/
def totalScore (db : DB) (q : Nat) : Int :=
  (((per_game_totals_view db).filter (fun r => r.player_id == q)).map
    (fun r => r.game_score)).sum

/-- The friends table of `SummarizePlayer`: the acting player's outgoing
friendship edges joined to `player`, grouped per friend (`GROUP BY p.id`)
with the friend's aggregate score over all games, ordered by score
descending.  Group keys are taken in first-occurrence order. -/
def spFriends (db : DB) (p : Nat) : List (String × Int) :=
  List.insertionSort (fun a b => b.2 ≤ a.2)
    ((((outEdges db p).map (fun f => f.friend_id)).dedup).filterMap (fun q =>
      (db.player.find? (fun w => w.id == q)).map (fun w => (w.name, totalScore db q))))

/-- Victories declared for game `g` (`SELECT game_id, COUNT(*) FROM victory
GROUP BY game_id`). -/
def vcount (db : DB) (g : Nat) : Nat :=
  (db.victory.filter (fun v => v.game_id == g)).length

/-- The unsorted games-table rows of `SummarizePlayer`:
`per_game_totals_view JOIN game NATURAL JOIN player_game JOIN (victory
counts per game) WHERE pgtv.player_id = ?`.  Each row carries the game name,
the text `earned/total`, the per-game score, and the in-game name; the inner
join on the victory counts drops library games that declare no victories. -/
def spGamesRows (db : DB) (p : Nat) : List (String × String × Int × String) :=
  (per_game_totals_view db).filterMap (fun r =>
    if r.player_id == p then
      (db.game.find? (fun gm => gm.id == r.game_id)).bind (fun gm =>
        (db.player_game.find? (fun e =>
          e.player_id == r.player_id && e.game_id == r.game_id)).bind (fun e =>
            if vcount db r.game_id == 0 then none
            else
              some (gm.name,
                toString r.n_earned_victories ++ "/" ++ toString (vcount db r.game_id),
                r.game_score, e.ign)))
    else none)

/-- The games table, `ORDER BY pgtv.game_score DESC`. -/
def spGames (db : DB) (p : Nat) : List (String × String × Int × String) :=
  List.insertionSort (fun a b => b.2.2.1 ≤ a.2.2.1) (spGamesRows db p)

/-- `cmd_summarize_player`: check the player exists, then the friends table,
the games table, and the grand total `sum(t[2] for t in games)` — the sum of
the score column of the games table just printed. -/
def summarizePlayer (db : DB) (p : Nat) :
    Except String (List (String × Int) × List (String × String × Int × String) × Int) :=
  match get_player_name db p with
  | none => .error ("Player #" ++ toString p ++ " is not in the database!")
  | some _ =>
    let games := spGames db p
    .ok (spFriends db p, games, (games.map (fun t => t.2.2.1)).sum)

/-! ### SummarizeVictory (`cmd_summarize_victory`) -/

/-- `SELECT COUNT(*) FROM player_game WHERE game_id = ?` — how many players
have the game in their library. -/
def totalPlayers (db : DB) (g : Nat) : Nat :=
  (db.player_game.filter (fun e => e.game_id == g)).length

/-- The earner names of `SummarizeVictory`: `SELECT p.name FROM
player_victory pv JOIN player p ON p.id = pv.player_id WHERE
pv.victory_id = ?`.  The query filters by the victory id alone — it takes no
game parameter. -/
def svEarners (db : DB) (vid : Nat) : List String :=
  db.player_victory.filterMap (fun pv =>
    if pv.victory_id == vid then
      (db.player.find? (fun q => q.id == pv.player_id)).map (fun q => q.name)
    else none)

/-- Outcome of `SummarizeVictory`. -/
inductive SVOut where
  /-- The game id is not in the database. -/
  | errGame (msg : String)
  /-- The victory id is not in the database for that game. -/
  | errVictory (msg : String)
  /-- `ZeroDivisionError` from `round(100 * len(rows) / total_players, 2)`
  when no player has the game in their library; it is caught nowhere, so the
  session crashes. -/
  | zeroDiv
  /-- The report: the earner names (also the numerator of the percentage) and
  the library-player count (the denominator). -/
  | report (earners : List String) (total_players : Nat)
deriving DecidableEq

/-- `cmd_summarize_victory`: check the game and the victory-within-game
exist, count the game's library players, fetch the earners, then compute the
percentage `round(100 * len(rows) / total_players, 2)` — a division by zero
when `total_players` is `0`. -/
def summarizeVictory (db : DB) (g vid : Nat) : SVOut :=
  match get_game_name db g with
  | none => .errGame ("Game #" ++ toString g ++ " is not in the database!")
  | some _ =>
    match get_victory_name db vid (some g) with
    | none =>
      .errVictory ("Victory #" ++ toString vid ++ " for game #" ++ toString g
        ++ " is not in the database!")
    | some _ =>
      let t := totalPlayers db g
      if t = 0 then .zeroDiv else .report (svEarners db vid) t

/-! ### VictoryRanking (`cmd_victory_ranking`)

`SELECT p.name, COALESCE(SUM(pgtv.game_score), 0) FROM player p LEFT JOIN
per_game_totals_view pgtv ON pgtv.player_id = p.id GROUP BY pgtv.player_id
ORDER BY game_score DESC`.

The grouping column is the view's `player_id`, which is NULL for every player
the left join matched nothing for — so all such players fall into one NULL
group.  The two bare columns (`p.name` in the select list, `pgtv.game_score`
in the `ORDER BY`) are not grouped: SQLite takes their value from an
arbitrary row of the group; the embedding deterministically takes the
group's first row (in join order).  In descending order SQLite sorts NULL
keys last. -/

/-- The rows of the left join, in join order: each player paired with each of
their view rows, or with `none` when they have no view row. -/
def vrJoinRows (db : DB) : List (Player × Option PGTVRow) :=
  db.player.flatMap (fun p =>
    let vr := (per_game_totals_view db).filter (fun r => r.player_id == p.id)
    if vr.isEmpty then [(p, none)] else vr.map (fun r => (p, some r)))

/-- The grouping key of a join row: `pgtv.player_id`, NULL (`none`) for an
unmatched player. -/
def vrKey (jr : Player × Option PGTVRow) : Option Nat :=
  jr.2.map (fun r => r.player_id)

/-- Descending comparison on the `ORDER BY game_score` key, NULL last:
`a` may come before `b` when `b`'s key is at most `a`'s, with NULL below
every value. -/
def vrOrdKeyLe : Option Int → Option Int → Bool
  | none, _ => true
  | some _, none => false
  | some x, some y => x ≤ y

/-- `cmd_victory_ranking`: group the join rows by `vrKey` (keys in
first-occurrence order), emit per group the first row's player name and
`COALESCE(SUM(game_score), 0)` (SUM skips NULLs; all-NULL sums to NULL,
coalesced to 0), then sort by the first row's `game_score` descending with
NULL last. -/
def victoryRanking (db : DB) : List (String × Int) :=
  let rows := vrJoinRows db
  let keys := (rows.map vrKey).dedup
  let groups := keys.filterMap (fun k =>
    match rows.filter (fun jr => vrKey jr == k) with
    | [] => none
    | jr :: tl =>
      some (((jr :: tl).filterMap (fun x => x.2.map (fun r => r.game_score))).sum,
        jr.1.name, jr.2.map (fun r => r.game_score)))
  (List.insertionSort (fun a b => vrOrdKeyLe b.2.2 a.2.2 = true) groups).map
    (fun grp => (grp.2.1, grp.1))

/-! ## Auxiliary predicates and concrete scenario states -/

/-- A mutating command whose referenced parent entity is absent, per the
checks its handler performs before the insert: `AddVictory` requires the
game, `Plays` the player and the game, `WinVictory` the player and the
victory within the stated game.  (`AddPlayer`/`AddGame` reference no parent;
`AddFriends` references the two players, which the claim does not cover.) -/
def parentMissing : Cmd → DB → Prop
  | .addVictory g _ _ _, db => get_game_name db g = none
  | .plays p g _, db => get_player_name db p = none ∨ get_game_name db g = none
  | .winVictory p g v, db =>
    get_player_name db p = none ∨ get_victory_name db v (some g) = none
  | _, _ => False

/-- The spec's SummarizeVictory scenario: `AddGame 1 "Chess"`;
`AddVictory 1 10 "First Win" 5`; `AddPlayer 1 "Ada"`; `WinVictory 1 1 10` —
one achievement, nobody with the game in their library. -/
def dbScenarioSV : DB :=
  runCmds [Cmd.addGame 1 "Chess", Cmd.addVictory 1 10 "First Win" 5,
    Cmd.addPlayer 1 "Ada", Cmd.winVictory 1 1 10] dbEmpty

/-- Two players and nothing else: `AddPlayer 1 "Alice"`; `AddPlayer 2 "Bob"`. -/
def dbScenarioVR : DB :=
  runCmds [Cmd.addPlayer 1 "Alice", Cmd.addPlayer 2 "Bob"] dbEmpty

/-- Two players, one game, only player 1 has a library entry:
`AddPlayer 1 "Ann"`; `AddPlayer 2 "Ben"`; `AddGame 1 "Go"`; `Plays 1 1 "ann"`. -/
def dbScenarioCP : DB :=
  runCmds [Cmd.addPlayer 1 "Ann", Cmd.addPlayer 2 "Ben", Cmd.addGame 1 "Go",
    Cmd.plays 1 1 "ann"] dbEmpty

/-- A player whose friend has the game in their library but no achievements:
`AddPlayer 1 "Ada"`; `AddPlayer 2 "Eve"`; `AddGame 1 "Go"`; `Plays 2 1 "eve"`;
`AddFriends 1 2`. -/
def dbScenarioFWP : DB :=
  runCmds [Cmd.addPlayer 1 "Ada", Cmd.addPlayer 2 "Eve", Cmd.addGame 1 "Go",
    Cmd.plays 2 1 "eve", Cmd.addFriends 1 2] dbEmpty

/-- One player in the database (the state after `AddPlayer 1 "Ada"`). -/
def dbOneAda : DB := ⟨[⟨1, "Ada"⟩], [], [], [], [], []⟩

/-- Two games that share victory id `10`, a player with game 2 in their
library, before the `WinVictory` that earns victory 10 via game 1. -/
def dbScenarioXG : DB :=
  runCmds [Cmd.addGame 1 "G1", Cmd.addGame 2 "G2", Cmd.addVictory 1 10 "V1" 5,
    Cmd.addVictory 2 10 "V2" 7, Cmd.addPlayer 1 "Ada", Cmd.plays 1 2 "ada"] dbEmpty

/-- Two players about to become friends: `AddPlayer 1 "A"`; `AddPlayer 2 "B"`. -/
def dbScenarioAF : DB :=
  runCmds [Cmd.addPlayer 1 "A", Cmd.addPlayer 2 "B"] dbEmpty

/-- Both players of `dbScenarioCP` with a library entry for game 1. -/
def dbScenarioCP2 : DB :=
  runCmds [Cmd.plays 2 1 "ben"] dbScenarioCP

/-- `dbScenarioXG` after `WinVictory 1 1 10` (the victory earned via game 1). -/
def dbScenarioXG2 : DB := runCmds [Cmd.winVictory 1 1 10] dbScenarioXG

/-- `dbScenarioAF` after `AddFriends 1 2`. -/
def dbScenarioAF2 : DB := runCmds [Cmd.addFriends 1 2] dbScenarioAF

/-! ## Order instances for the `ORDER BY` relations -/

instance : IsTotal (String × Int) (fun a b => b.2 ≤ a.2) :=
  ⟨fun a b => le_total b.2 a.2⟩

instance : IsTrans (String × Int) (fun a b => b.2 ≤ a.2) :=
  ⟨fun _ _ _ h1 h2 => le_trans h2 h1⟩

instance : IsTotal (String × String × Int × String) (fun a b => b.2.2.1 ≤ a.2.2.1) :=
  ⟨fun a b => le_total b.2.2.1 a.2.2.1⟩

instance : IsTrans (String × String × Int × String) (fun a b => b.2.2.1 ≤ a.2.2.1) :=
  ⟨fun _ _ _ h1 h2 => le_trans h2 h1⟩

instance (p1 : Nat) : IsTotal (Nat × String × Int) (fun a b => cpKey p1 a ≤ cpKey p1 b) :=
  ⟨fun a b => le_total (cpKey p1 a) (cpKey p1 b)⟩

instance (p1 : Nat) : IsTrans (Nat × String × Int) (fun a b => cpKey p1 a ≤ cpKey p1 b) :=
  ⟨fun _ _ _ h1 h2 => le_trans h1 h2⟩

instance : IsTotal VicRow vicOrd := by
  constructor
  intro a b
  rcases lt_trichotomy a.name b.name with h | h | h
  · exact Or.inl (Or.inl h)
  · rcases le_total b.points a.points with hp | hp
    · exact Or.inl (Or.inr ⟨h, hp⟩)
    · exact Or.inr (Or.inr ⟨h.symm, hp⟩)
  · exact Or.inr (Or.inl h)

instance : IsTrans VicRow vicOrd := by
  constructor
  intro a b c hab hbc
  rcases hab with h1 | ⟨h1, hp1⟩
  · rcases hbc with h2 | ⟨h2, _⟩
    · exact Or.inl (lt_trans h1 h2)
    · exact Or.inl (h2 ▸ h1)
  · rcases hbc with h2 | ⟨h2, hp2⟩
    · exact Or.inl (h1 ▸ h2)
    · exact Or.inr ⟨h1.trans h2, le_trans hp2 hp1⟩

/-! ## Helper lemmas -/

/-- Looking a `(player, game)` pair up in the view finds a row exactly when
the pair is a `player_game` library entry, and the row then carries that
pair's per-game score and victory count (all view rows of a pair agree, the
fields being functions of the pair). -/
lemma find?_view_row (db : DB) (l : List PlayerGame) (q g : Nat) :
    (l.map (fun e => (⟨e.player_id, e.game_id, game_score db e.player_id e.game_id,
        n_earned_victories db e.player_id e.game_id⟩ : PGTVRow))).find?
      (fun r => r.player_id == q && r.game_id == g) =
    (if l.any (fun e => e.player_id == q && e.game_id == g) then
      some ⟨q, g, game_score db q g, n_earned_victories db q g⟩
    else none) := by
  induction l with
  | nil => rfl
  | cons e t ih =>
    simp only [List.map_cons, List.find?_cons, List.any_cons]
    by_cases h : (e.player_id == q && e.game_id == g) = true
    · obtain ⟨h1, h2⟩ := (Bool.and_eq_true _ _).mp h
      have hq : e.player_id = q := by simpa using h1
      have hg : e.game_id = g := by simpa using h2
      subst hq
      subst hg
      simp
    · have hb : (e.player_id == q && e.game_id == g) = false :=
        Bool.eq_false_iff.mpr h
      simp only [hb, Bool.false_or]
      exact ih

/-- `fwpRows` in terms of the base tables: a friend row appears per outgoing
edge whose target is a player with a library entry for the game, and its
score is the target's per-game score. -/
lemma fwpRows_eq (db : DB) (p g : Nat) :
    fwpRows db p g = (outEdges db p).filterMap (fun f =>
      (db.player.find? (fun q => q.id == f.friend_id)).bind (fun q =>
        if db.player_game.any (fun e => e.player_id == f.friend_id && e.game_id == g)
        then some (q.name, game_score db f.friend_id g) else none)) := by
  unfold fwpRows per_game_totals_view
  congr 1
  funext f
  rw [find?_view_row]
  cases db.player.find? (fun q => q.id == f.friend_id) with
  | none => rfl
  | some q =>
    by_cases h : db.player_game.any (fun e => e.player_id == f.friend_id && e.game_id == g) = true
    · simp [h]
    · simp [Bool.eq_false_iff.mpr h]

/-! ## The claims -/

/-- C1: the signed-integer matcher `INT_TOK` does NOT convert sign-prefixed
input to the corresponding integer.  Its parse action `int(l[0])` is applied
to the first token of `OPT_SIGN + ID_TOK`; when a sign is present that token
is the sign string, and Python `int("-")`/`int("+")` raises `ValueError`
(uncaught — the session loop catches only parse exceptions).  An unsigned
input converts correctly, because its first token is already the integer
produced by `ID_TOK`'s parse action.  So `"-5"` raises instead of producing
`-5`, refuting the claim's signed cases. -/
theorem c1_int_tok_sign_raises_value_error :
    intTokRunStr "-5" = IntTokResult.valueError ∧
    intTokRunStr "+7" = IntTokResult.valueError ∧
    intTokRunStr "5" = IntTokResult.ok 5 [] ∧
    intTokRunStr "-5" ≠ IntTokResult.ok (-5) [] :=
  ⟨rfl, rfl, rfl, by decide⟩

/-- C2: `SummarizeVictory` on the spec's own scenario (game `1` with victory
`10` earned by Ada, but nobody with the game in their library) reaches
`round(100 * len(rows) / total_players, 2)` with `total_players = 0`: a
`ZeroDivisionError`, caught nowhere — neither an explicit error report nor
`0%`.  The checks pass (game and victory exist), the library count is `0`,
and the achievement row exists. -/
theorem c2_summarize_victory_divides_by_zero :
    summarizeVictory dbScenarioSV 1 10 = SVOut.zeroDiv ∧
    totalPlayers dbScenarioSV 1 = 0 ∧
    svEarners dbScenarioSV 10 = ["Ada"] :=
  ⟨rfl, rfl, rfl⟩

/-- C3: `VictoryRanking` merges all players that have no per-game rows into
one output row, because the query groups by the outer-joined
`pgtv.player_id`, which is NULL for every such player.  With exactly the two
players Alice and Bob in the database the leaderboard has a single row
(carrying one of the names and total `0`) instead of one row per player. -/
theorem c3_victory_ranking_merges_rows :
    victoryRanking dbScenarioVR = [("Alice", 0)] ∧
    (victoryRanking dbScenarioVR).length = 1 ∧
    dbScenarioVR.player.length = 2 :=
  ⟨rfl, rfl, rfl⟩

/-- C4: for an existing player and game, `FriendsWhoPlay` outputs, up to the
score-descending ordering, exactly one row per outgoing friendship edge
whose target player has a library entry for the game — the row carrying the
friend's name and per-game score — and the per-game score of a player with
no achievements in the game is `0`. -/
theorem c4_friends_who_play_rows (db : DB) (p g : Nat) (pn gn : String)
    (hp : get_player_name db p = some pn) (hg : get_game_name db g = some gn) :
    ∃ rows, friendsWhoPlay db p g = Except.ok rows ∧
      rows.Perm ((outEdges db p).filterMap (fun f =>
        (db.player.find? (fun q => q.id == f.friend_id)).bind (fun q =>
          if db.player_game.any (fun e => e.player_id == f.friend_id && e.game_id == g)
          then some (q.name, game_score db f.friend_id g) else none))) ∧
      rows.Sorted (fun a b => b.2 ≤ a.2) ∧
      ∀ q, earnedVictories db q g = [] → game_score db q g = 0 := by
  refine ⟨List.insertionSort (fun a b => b.2 ≤ a.2) (fwpRows db p g), ?_, ?_, ?_, ?_⟩
  · unfold friendsWhoPlay
    rw [hp, hg]
  · rw [← fwpRows_eq]
    exact List.perm_insertionSort _ _
  · exact List.sorted_insertionSort _ _
  · intro q hq
    unfold game_score
    rw [hq]
    rfl

/-- Witness for C4 at `dbScenarioFWP`: Ada's friend Eve has the game in her
library and no achievements. -/
theorem c4_witness :
    ∃ rows, friendsWhoPlay dbScenarioFWP 1 1 = Except.ok rows ∧
      rows.Perm ((outEdges dbScenarioFWP 1).filterMap (fun f =>
        (dbScenarioFWP.player.find? (fun q => q.id == f.friend_id)).bind (fun q =>
          if dbScenarioFWP.player_game.any
            (fun e => e.player_id == f.friend_id && e.game_id == 1)
          then some (q.name, game_score dbScenarioFWP f.friend_id 1) else none))) ∧
      rows.Sorted (fun a b => b.2 ≤ a.2) ∧
      ∀ q, earnedVictories dbScenarioFWP q 1 = [] → game_score dbScenarioFWP q 1 = 0 :=
  c4_friends_who_play_rows dbScenarioFWP 1 1 "Ada" "Go" rfl rfl

/-- C6: an `AddVictory`, `Plays` or `WinVictory` command whose referenced
parent entity is absent fails with a not-found error — produced by the
pre-insert existence checks — and leaves the store exactly as it was. -/
theorem c6_parent_not_found_no_insert (c : Cmd) (db : DB) (h : parentMissing c db) :
    (runCmd c db).1 = db ∧ ∃ m, (runCmd c db).2 = Out.err m := by
  cases c with
  | addPlayer i n => exact absurd h (by simp [parentMissing])
  | addGame i n => exact absurd h (by simp [parentMissing])
  | addFriends a b => exact absurd h (by simp [parentMissing])
  | addVictory g v n pts =>
    simp only [parentMissing] at h
    simp only [runCmd, cmd_add_victory, h]
    exact ⟨by trivial, _, rfl⟩
  | plays p g ign =>
    simp only [parentMissing] at h
    rcases h with h | h
    · simp only [runCmd, cmd_plays, h]
      exact ⟨by trivial, _, rfl⟩
    · rcases hP : get_player_name db p with _ | pn
      · simp only [runCmd, cmd_plays, hP]
        exact ⟨by trivial, _, rfl⟩
      · simp only [runCmd, cmd_plays, hP, h]
        exact ⟨by trivial, _, rfl⟩
  | winVictory p g v =>
    simp only [parentMissing] at h
    rcases h with h | h
    · simp only [runCmd, cmd_win_victory, h]
      exact ⟨by trivial, _, rfl⟩
    · rcases hP : get_player_name db p with _ | pn
      · simp only [runCmd, cmd_win_victory, hP]
        exact ⟨by trivial, _, rfl⟩
      · simp only [runCmd, cmd_win_victory, hP, h]
        exact ⟨by trivial, _, rfl⟩

/-- C5: a mutating command that succeeded once fails when repeated with the
same key: the repeat reports a duplicate error (the caught `IntegrityError`,
not a crash) and the state after the repeat is exactly the state the first
run left — no row inserted, updated or deleted. -/
theorem c5_repeat_is_duplicate_error (c : Cmd) (db db1 : DB) (m : String)
    (h : runCmd c db = (db1, Out.ok m)) :
    (runCmd c db1).1 = db1 ∧ ∃ m2, (runCmd c db1).2 = Out.err m2 := by
  cases c with
  | addPlayer i n =>
    simp only [runCmd, cmd_add_player] at h ⊢
    split at h
    · simp at h
    · injection h with h1 h2
      subst h1
      have hany : ({db with player := db.player ++ [⟨i, n⟩]} : DB).player.any
          (fun p => p.id == i) = true := by simp
      simp [hany]
  | addGame i n =>
    simp only [runCmd, cmd_add_game] at h ⊢
    split at h
    · simp at h
    · injection h with h1 h2
      subst h1
      have hany : ({db with game := db.game ++ [⟨i, n⟩]} : DB).game.any
          (fun g => g.id == i) = true := by simp
      simp [hany]
  | addVictory g v n pts =>
    simp only [runCmd, cmd_add_victory] at h ⊢
    rcases hG : get_game_name db g with _ | gname
    · simp only [hG] at h
      simp at h
    · simp only [hG] at h
      split at h
      · simp at h
      · injection h with h1 h2
        subst h1
        have hG2 : get_game_name
            ({db with victory := db.victory ++ [⟨v, g, n, pts⟩]} : DB) g = some gname := hG
        simp only [hG2]
        have hany : ({db with victory := db.victory ++ [⟨v, g, n, pts⟩]} : DB).victory.any
            (fun w => w.game_id == g && w.id == v) = true := by simp
        simp [hany]
  | plays p g ign =>
    simp only [runCmd, cmd_plays] at h ⊢
    rcases hP : get_player_name db p with _ | pname
    · simp only [hP] at h
      simp at h
    · simp only [hP] at h
      rcases hG : get_game_name db g with _ | gname
      · simp only [hG] at h
        simp at h
      · simp only [hG] at h
        split at h
        · simp at h
        · injection h with h1 h2
          subst h1
          have hP2 : get_player_name
              ({db with player_game := db.player_game ++ [⟨p, g, ign⟩]} : DB) p
              = some pname := hP
          have hG2 : get_game_name
              ({db with player_game := db.player_game ++ [⟨p, g, ign⟩]} : DB) g
              = some gname := hG
          simp only [hP2, hG2]
          have hany : ({db with player_game := db.player_game ++ [⟨p, g, ign⟩]}
              : DB).player_game.any
              (fun e => e.player_id == p && e.game_id == g) = true := by simp
          simp [hany]
  | addFriends a b =>
    simp only [runCmd, cmd_add_friends] at h ⊢
    rcases hA : get_player_name db a with _ | aname
    · simp only [hA] at h
      simp at h
    · simp only [hA] at h
      rcases hB : get_player_name db b with _ | bname
      · simp only [hB] at h
        simp at h
      · simp only [hB] at h
        split at h
        · simp at h
        · injection h with h1 h2
          subst h1
          have hA2 : get_player_name
              ({db with friendship := db.friendship ++ [⟨a, b⟩]} : DB) a = some aname := hA
          have hB2 : get_player_name
              ({db with friendship := db.friendship ++ [⟨a, b⟩]} : DB) b = some bname := hB
          simp only [hA2, hB2]
          have hany : ({db with friendship := db.friendship ++ [⟨a, b⟩]}
              : DB).friendship.any
              (fun f => f.player_id == a && f.friend_id == b) = true := by simp
          simp [hany]
  | winVictory p g v =>
    simp only [runCmd, cmd_win_victory] at h ⊢
    rcases hP : get_player_name db p with _ | pname
    · simp only [hP] at h
      simp at h
    · simp only [hP] at h
      rcases hV : get_victory_name db v (some g) with _ | vname
      · simp only [hV] at h
        simp at h
      · simp only [hV] at h
        split at h
        · simp at h
        · injection h with h1 h2
          subst h1
          have hP2 : get_player_name
              ({db with player_victory := db.player_victory ++ [⟨p, v⟩]} : DB) p
              = some pname := hP
          have hV2 : get_victory_name
              ({db with player_victory := db.player_victory ++ [⟨p, v⟩]} : DB) v (some g)
              = some vname := hV
          simp only [hP2, hV2]
          have hany : ({db with player_victory := db.player_victory ++ [⟨p, v⟩]}
              : DB).player_victory.any
              (fun pv => pv.player_id == p && pv.victory_id == v) = true := by simp
          simp [hany]

/-- Witness for C5: repeating `AddPlayer 1 "Ada"` against the state it
created. -/
theorem c5_witness :
    (runCmd (Cmd.addPlayer 1 "Ada") dbOneAda).1 = dbOneAda ∧
    ∃ m2, (runCmd (Cmd.addPlayer 1 "Ada") dbOneAda).2 = Out.err m2 :=
  c5_repeat_is_duplicate_error (Cmd.addPlayer 1 "Ada") dbEmpty dbOneAda
    "Ada added as Player #1." rfl

/-- Witness for C6: `AddVictory` against the nonexistent game `5` on the
empty database. -/
theorem c6_witness :
    (runCmd (Cmd.addVictory 5 1 "Win" 3) dbEmpty).1 = dbEmpty ∧
    ∃ m, (runCmd (Cmd.addVictory 5 1 "Win" 3) dbEmpty).2 = Out.err m :=
  c6_parent_not_found_no_insert (Cmd.addVictory 5 1 "Win" 3) dbEmpty rfl

/-- C7 counterexample: in `dbScenarioCP` players Ann and Ben and game `Go`
all exist, but Ben has no library entry for the game, so the totals table of
`ComparePlayers 1 2 1` has a single row — not "exactly two rows ...
including a player who has no library entry". -/
theorem c7_counterexample :
    comparePlayers dbScenarioCP 1 2 1 = Except.ok ([("Ann", 0)], []) ∧
    ([(("Ann" : String), (0 : Int))]).length ≠ 2 :=
  ⟨rfl, by decide⟩

/-- C7 amended: the totals table contains one row per each of the two
players that has a library entry for the game (a player with a library
entry but no achievements appears with score `0`; a player with no library
entry is omitted), the requesting player's rows first; the victories table
lists every victory of the game with points and the two `Y`/`N` flags,
ordered by name ascending then points descending. -/
theorem c7_compare_players_amended (db : DB) (p1 p2 g : Nat) (n1 n2 gn : String)
    (h1 : get_player_name db p1 = some n1) (h2 : get_player_name db p2 = some n2)
    (hg : get_game_name db g = some gn) :
    ∃ (totalsF : List (Nat × String × Int)) (vics : List VicRow),
      comparePlayers db p1 p2 g
        = Except.ok (totalsF.map (fun t => (t.2.1, t.2.2)), vics) ∧
      totalsF.Perm (db.player_game.filterMap (fun e =>
        if e.game_id == g && (e.player_id == p1 || e.player_id == p2) then
          (db.player.find? (fun q => q.id == e.player_id)).map (fun q =>
            (e.player_id, q.name, game_score db e.player_id g))
        else none)) ∧
      totalsF.Sorted (fun a b => cpKey p1 a ≤ cpKey p1 b) ∧
      vics.Perm ((db.victory.filter (fun v => v.game_id == g)).map (fun v =>
        (⟨v.name, v.points, if hasPV db p1 v.id then "Y" else "N",
          if hasPV db p2 v.id then "Y" else "N"⟩ : VicRow))) ∧
      vics.Sorted vicOrd := by
  refine ⟨cpTotalsFull db p1 p2 g, cpVictories db p1 p2 g, ?_, ?_, ?_, ?_, ?_⟩
  · unfold comparePlayers
    simp only [h1, h2, hg]
  · unfold cpTotalsFull per_game_totals_view
    refine (List.perm_insertionSort _ _).trans ?_
    rw [List.filterMap_map]
    have hfn : ((fun r : PGTVRow =>
        if r.game_id == g && (r.player_id == p1 || r.player_id == p2) then
          (db.player.find? (fun q => q.id == r.player_id)).map (fun q =>
            (r.player_id, q.name, r.game_score))
        else none) ∘ (fun e : PlayerGame =>
          (⟨e.player_id, e.game_id, game_score db e.player_id e.game_id,
            n_earned_victories db e.player_id e.game_id⟩ : PGTVRow)))
        = (fun e : PlayerGame =>
          if e.game_id == g && (e.player_id == p1 || e.player_id == p2) then
            (db.player.find? (fun q => q.id == e.player_id)).map (fun q =>
              (e.player_id, q.name, game_score db e.player_id g))
          else none) := by
      funext e
      by_cases hc : (e.game_id == g && (e.player_id == p1 || e.player_id == p2)) = true
      · have hge : e.game_id = g := by
          have := ((Bool.and_eq_true _ _).mp hc).1
          simpa using this
        simp only [Function.comp_apply, hc, if_true]
        rw [hge]
      · simp only [Function.comp_apply, Bool.eq_false_iff.mpr hc]
        rfl
    rw [hfn]
  · exact List.sorted_insertionSort _ _
  · exact List.perm_insertionSort _ _
  · exact List.sorted_insertionSort _ _

/-- Witness for the amended C7 at `dbScenarioCP2`, where both players have a
library entry. -/
theorem c7_witness :
    ∃ (totalsF : List (Nat × String × Int)) (vics : List VicRow),
      comparePlayers dbScenarioCP2 1 2 1
        = Except.ok (totalsF.map (fun t => (t.2.1, t.2.2)), vics) ∧
      totalsF.Perm (dbScenarioCP2.player_game.filterMap (fun e =>
        if e.game_id == 1 && (e.player_id == 1 || e.player_id == 2) then
          (dbScenarioCP2.player.find? (fun q => q.id == e.player_id)).map (fun q =>
            (e.player_id, q.name, game_score dbScenarioCP2 e.player_id 1))
        else none)) ∧
      totalsF.Sorted (fun a b => cpKey 1 a ≤ cpKey 1 b) ∧
      vics.Perm ((dbScenarioCP2.victory.filter (fun v => v.game_id == 1)).map (fun v =>
        (⟨v.name, v.points, if hasPV dbScenarioCP2 1 v.id then "Y" else "N",
          if hasPV dbScenarioCP2 2 v.id then "Y" else "N"⟩ : VicRow))) ∧
      vics.Sorted vicOrd :=
  c7_compare_players_amended dbScenarioCP2 1 2 1 "Ann" "Ben" "Go" rfl rfl rfl

/-- C8: for an existing player, the grand total `SummarizePlayer` prints is
the sum of the score column over the rows of its own games table, and `0`
when that table is empty. -/
theorem c8_grand_total_sums_games_table (db : DB) (p : Nat) (pn : String)
    (h : get_player_name db p = some pn) :
    ∃ fr games total, summarizePlayer db p = Except.ok (fr, games, total) ∧
      total = (games.map (fun t => t.2.2.1)).sum ∧ (games = [] → total = 0) := by
  refine ⟨spFriends db p, spGames db p, ((spGames db p).map (fun t => t.2.2.1)).sum, ?_, rfl, ?_⟩
  · unfold summarizePlayer
    rw [h]
  · intro hnil
    rw [hnil]
    rfl

/-- Witness for C8 at `dbScenarioXG` extended by Ada's win: a nonempty games
table. -/
theorem c8_witness :
    ∃ fr games total,
      summarizePlayer (runCmds [Cmd.winVictory 1 1 10] dbScenarioXG) 1
        = Except.ok (fr, games, total) ∧
      total = (games.map (fun t => t.2.2.1)).sum ∧ (games = [] → total = 0) :=
  c8_grand_total_sums_games_table (runCmds [Cmd.winVictory 1 1 10] dbScenarioXG) 1 "Ada" rfl

/-- C9: a successful `WinVictory p g1 vid` appends exactly the pair
`(p, vid)` to `player_victory` — no game column — and because
`SummarizeVictory`'s earner query and `ComparePlayers`' achievement flags
match on the victory id alone, any victory with the same id `vid` belonging
to another game `g2` now counts as earned by `p` as well: `p`'s name is
among the earners `SummarizeVictory` reports for `(g2, vid)` and the flag in
`ComparePlayers`' victory table for that victory of `g2` is `Y`. -/
theorem c9_achievements_match_by_victory_id (db db1 : DB) (p g1 g2 vid : Nat)
    (m pn : String) (v : Victory)
    (hrun : runCmd (Cmd.winVictory p g1 vid) db = (db1, Out.ok m))
    (hpn : get_player_name db p = some pn)
    (hv : v ∈ db.victory) (hvg : v.game_id = g2) (hvid : v.id = vid) :
    db1 = {db with player_victory := db.player_victory ++ [⟨p, vid⟩]} ∧
    hasPV db1 p vid = true ∧
    pn ∈ svEarners db1 vid ∧
    (∀ q, (⟨v.name, v.points, "Y", if hasPV db1 q vid then "Y" else "N"⟩ : VicRow)
        ∈ cpVictories db1 p q g2) ∧
    (∀ gn2, get_game_name db g2 = some gn2 → totalPlayers db g2 ≠ 0 →
      summarizeVictory db1 g2 vid
        = SVOut.report (svEarners db1 vid) (totalPlayers db g2)) := by
  simp only [runCmd, cmd_win_victory, hpn] at hrun
  rcases hV : get_victory_name db vid (some g1) with _ | vn
  · simp only [hV] at hrun
    simp at hrun
  · simp only [hV] at hrun
    split at hrun
    · simp at hrun
    · injection hrun with hEq hOut
      subst hEq
      have hY : hasPV ({db with player_victory := db.player_victory ++ [⟨p, vid⟩]} : DB)
          p vid = true := by
        simp [hasPV]
      unfold get_player_name at hpn
      obtain ⟨q0, hfind, hname⟩ := (Option.map_eq_some').mp hpn
      refine ⟨rfl, hY, ?_, ?_, ?_⟩
      · unfold svEarners
        rw [show ({db with player_victory := db.player_victory ++ [⟨p, vid⟩]}
            : DB).player_victory = db.player_victory ++ [⟨p, vid⟩] from rfl]
        rw [List.filterMap_append]
        apply List.mem_append_right
        simp [hfind, hname]
      · intro q
        unfold cpVictories
        rw [(List.perm_insertionSort _ _).mem_iff]
        rw [List.mem_map]
        refine ⟨v, ?_, ?_⟩
        · rw [List.mem_filter]
          exact ⟨hv, by simp [hvg]⟩
        · rw [hvid]
          simp [hY]
      · intro gn2 hg2 ht
        unfold summarizeVictory
        have hg2b : get_game_name
            ({db with player_victory := db.player_victory ++ [⟨p, vid⟩]} : DB) g2
            = some gn2 := hg2
        simp only [hg2b]
        rcases hF : get_victory_name
            ({db with player_victory := db.player_victory ++ [⟨p, vid⟩]} : DB) vid (some g2)
            with _ | vn2
        · exfalso
          unfold get_victory_name at hF
          rw [Option.map_eq_none'] at hF
          rw [List.find?_eq_none] at hF
          exact hF v hv (by simp [hvid, hvg])
        · simp only [hF]
          have htb : ¬ (totalPlayers
              ({db with player_victory := db.player_victory ++ [⟨p, vid⟩]} : DB) g2 = 0) := ht
          rw [if_neg htb]
          rfl

/-- Witness for C9 at `dbScenarioXG`: Ada earns victory `10` via game 1, and
game 2's victory `10` ("V2") counts as earned for her too. -/
theorem c9_witness :
    dbScenarioXG2 = {dbScenarioXG with
      player_victory := dbScenarioXG.player_victory ++ [⟨1, 10⟩]} ∧
    hasPV dbScenarioXG2 1 10 = true ∧
    "Ada" ∈ svEarners dbScenarioXG2 10 ∧
    (∀ q, (⟨"V2", 7, "Y", if hasPV dbScenarioXG2 q 10 then "Y" else "N"⟩ : VicRow)
        ∈ cpVictories dbScenarioXG2 1 q 2) ∧
    (∀ gn2, get_game_name dbScenarioXG 2 = some gn2 → totalPlayers dbScenarioXG 2 ≠ 0 →
      summarizeVictory dbScenarioXG2 2 10
        = SVOut.report (svEarners dbScenarioXG2 10) (totalPlayers dbScenarioXG 2)) :=
  c9_achievements_match_by_victory_id dbScenarioXG dbScenarioXG2 1 1 2 10
    "Added V1 to Ada victories." "Ada" ⟨10, 2, "V2", 7⟩ rfl rfl (by decide) rfl rfl

/-- C10: a successful `AddFriends a b` appends exactly the one directed row
`(a, b)` — never the reverse — and, provided the reverse row was not already
present and `a ≠ b`, the queried-player selection `outEdges` that
`FriendsWhoPlay` and `SummarizePlayer` filter friendships with is unchanged
for `b`: `a` is not among `b`'s outgoing-edge targets, and `b`'s
`FriendsWhoPlay` rows and `SummarizePlayer` friends table are exactly what
they were before the command. -/
theorem c10_addfriends_is_directed (db db1 : DB) (a b : Nat) (m : String)
    (hrun : runCmd (Cmd.addFriends a b) db = (db1, Out.ok m))
    (hrev : (⟨b, a⟩ : Friendship) ∉ db.friendship) (hne : a ≠ b) :
    db1 = {db with friendship := db.friendship ++ [⟨a, b⟩]} ∧
    (⟨a, b⟩ : Friendship) ∈ db1.friendship ∧
    (⟨b, a⟩ : Friendship) ∉ db1.friendship ∧
    outEdges db1 b = outEdges db b ∧
    a ∉ (outEdges db1 b).map (fun f => f.friend_id) ∧
    (∀ g, fwpRows db1 b g = fwpRows db b g) ∧
    spFriends db1 b = spFriends db b := by
  simp only [runCmd, cmd_add_friends] at hrun
  rcases hA : get_player_name db a with _ | an
  · simp only [hA] at hrun
    simp at hrun
  · simp only [hA] at hrun
    rcases hB : get_player_name db b with _ | bn
    · simp only [hB] at hrun
      simp at hrun
    · simp only [hB] at hrun
      split at hrun
      · simp at hrun
      · injection hrun with hEq hOut
        subst hEq
        have houtE : outEdges ({db with friendship := db.friendship ++ [⟨a, b⟩]} : DB) b
            = outEdges db b := by
          unfold outEdges
          show List.filter (fun f => f.player_id == b) (db.friendship ++ [⟨a, b⟩])
            = List.filter (fun f => f.player_id == b) db.friendship
          rw [List.filter_append]
          have hnil : List.filter (fun f => f.player_id == b) [(⟨a, b⟩ : Friendship)]
              = [] := by
            simp [hne]
          rw [hnil, List.append_nil]
        refine ⟨rfl, by simp, ?_, houtE, ?_, ?_, ?_⟩
        · intro hmem
          rcases List.mem_append.mp hmem with hm | hm
          · exact hrev hm
          · simp at hm
            exact hne hm.2
        · rw [houtE]
          intro hmem
          rcases List.mem_map.mp hmem with ⟨f, hf, hfa⟩
          rcases List.mem_filter.mp hf with ⟨hf1, hf2⟩
          cases f with
          | mk fp fq =>
            have hfp : fp = b := by simpa using hf2
            have hfq : fq = a := hfa
            subst hfp
            subst hfq
            exact hrev hf1
        · intro g
          unfold fwpRows
          rw [houtE]
          rfl
        · unfold spFriends
          rw [houtE]
          rfl

/-- Witness for C10 at `dbScenarioAF`: after `AddFriends 1 2`, player 2's
listings are untouched and do not gain player 1. -/
theorem c10_witness :
    dbScenarioAF2 = {dbScenarioAF with
      friendship := dbScenarioAF.friendship ++ [⟨1, 2⟩]} ∧
    (⟨1, 2⟩ : Friendship) ∈ dbScenarioAF2.friendship ∧
    (⟨2, 1⟩ : Friendship) ∉ dbScenarioAF2.friendship ∧
    outEdges dbScenarioAF2 2 = outEdges dbScenarioAF 2 ∧
    1 ∉ (outEdges dbScenarioAF2 2).map (fun f => f.friend_id) ∧
    (∀ g, fwpRows dbScenarioAF2 2 g = fwpRows dbScenarioAF 2 g) ∧
    spFriends dbScenarioAF2 2 = spFriends dbScenarioAF 2 :=
  c10_addfriends_is_directed dbScenarioAF dbScenarioAF2 1 2
    "A and B are now friends." rfl (by decide) (by decide)

end GameDB
